import Mathlib

/-!
Shallow embedding of the yoyo-py state coordination layer.

The definitions below are translated from the repository source:
  * `src/yoyopy/state_machine.py` — `AppState`, `StateTransition`,
    `StateMachine._define_transitions`, `can_transition`, `transition_to`,
    `_fire_callbacks`, and the boolean helper methods;
  * `src/yoyopy/ui/screen_manager.py` — `ScreenManager.push_screen`,
    `ScreenManager.pop_screen`;
  * `src/yoyopy/app.py` — the `YoyoPodApp` coordinator fields and the
    event handlers `_handle_incoming_call`, `_handle_call_ended`,
    `_handle_playback_state_change`, `_pop_call_screens`;
  * `src/yoyopy/connectivity/voip_manager.py` —
    `_update_call_state`, `_update_registration_state`.

Modelling conventions: Python lists become `List`, dicts keyed by states
become functions out of the state type, exceptions that the source raises
become `Except`, and an optional collaborator handle becomes `Option`.
Enter/exit callbacks are opaque values carrying an identifier and a flag
saying whether the callback raises when executed; `_fire_callbacks` wraps
each call in try/except and continues, so its embedding records, in order,
every callback it ran together with that flag.  Handlers log and render
screens as side effects; logging and pixel rendering are outside the model,
while music-collaborator commands and screen pushes are recorded in traces
so that "called exactly once" properties can be stated.
-/

namespace YoyoPy

/-- `AppState` from `state_machine.py`. -/
inductive AppState where
  | IDLE
  | MENU
  | PLAYING
  | PAUSED
  | SETTINGS
  | PLAYLIST
  | PLAYLIST_BROWSER
  | CALL_IDLE
  | CALL_INCOMING
  | CALL_OUTGOING
  | CALL_ACTIVE
  | CALLING
  | CONNECTING
  | ERROR
  | PLAYING_WITH_VOIP
  | PAUSED_BY_CALL
  | CALL_ACTIVE_MUSIC_PAUSED
  deriving DecidableEq, Repr

open AppState

/-- `StateTransition` dataclass: `(from_state, to_state, trigger, guard)`.
The guard is a side-effect-free nullary predicate evaluated at transition
time; its evaluation result is modelled as `Option Bool` (`none` = no
guard).  Every entry built by `_define_transitions` has `guard = None`. -/
structure StateTransition where
  from_state : AppState
  to_state : AppState
  trigger : String
  guard : Option Bool
  deriving DecidableEq, Repr

/-- An enter/exit callback: an opaque identifier plus whether running the
callback raises an exception. -/
structure Callback where
  ident : Nat
  raises : Bool
  deriving DecidableEq, Repr

/-- The mutable part of `StateMachine` (`__init__`): current state,
previous state, bounded history, per-state callback registries, and the
transition table fixed at construction. -/
structure SM where
  current : AppState
  previous : Option AppState
  history : List AppState
  onEnterCbs : AppState → List Callback
  onExitCbs : AppState → List Callback
  transitions : List StateTransition

/-- `StateMachine._define_transitions`, entry for entry. -/
def defineTransitions : List StateTransition := [
  ⟨IDLE, MENU, "open_menu", none⟩,
  ⟨IDLE, SETTINGS, "open_settings", none⟩,
  ⟨IDLE, CONNECTING, "connect", none⟩,
  ⟨MENU, IDLE, "back", none⟩,
  ⟨MENU, PLAYING, "select_media", none⟩,
  ⟨MENU, PLAYLIST, "select_playlist", none⟩,
  ⟨MENU, PLAYLIST_BROWSER, "browse_playlists", none⟩,
  ⟨MENU, CALL_IDLE, "open_voip", none⟩,
  ⟨MENU, SETTINGS, "select_settings", none⟩,
  ⟨PLAYING, PAUSED, "pause", none⟩,
  ⟨PLAYING, MENU, "back", none⟩,
  ⟨PLAYING, IDLE, "stop", none⟩,
  ⟨PAUSED, PLAYING, "resume", none⟩,
  ⟨PAUSED, PLAYING_WITH_VOIP, "resume", none⟩,
  ⟨PAUSED, MENU, "back", none⟩,
  ⟨PAUSED, IDLE, "stop", none⟩,
  ⟨PLAYLIST, MENU, "back", none⟩,
  ⟨PLAYLIST, PLAYING, "select_track", none⟩,
  ⟨PLAYLIST_BROWSER, MENU, "back", none⟩,
  ⟨PLAYLIST_BROWSER, PLAYING, "load_playlist", none⟩,
  ⟨CALL_IDLE, MENU, "back", none⟩,
  ⟨CALL_IDLE, CALL_OUTGOING, "make_call", none⟩,
  ⟨CALL_IDLE, CALL_INCOMING, "incoming_call", none⟩,
  ⟨CALL_IDLE, CALLING, "make_call", none⟩,
  ⟨CALL_IDLE, CALLING, "incoming_call", none⟩,
  ⟨CALL_INCOMING, CALL_ACTIVE, "answer_call", none⟩,
  ⟨CALL_INCOMING, CALL_IDLE, "reject_call", none⟩,
  ⟨CALL_INCOMING, CALL_IDLE, "call_ended", none⟩,
  ⟨CALL_OUTGOING, CALL_ACTIVE, "call_connected", none⟩,
  ⟨CALL_OUTGOING, CALL_IDLE, "cancel_call", none⟩,
  ⟨CALL_OUTGOING, CALL_IDLE, "call_failed", none⟩,
  ⟨CALL_ACTIVE, CALL_IDLE, "end_call", none⟩,
  ⟨CALL_ACTIVE, CALL_IDLE, "call_ended", none⟩,
  ⟨CALLING, CALL_IDLE, "call_ended", none⟩,
  ⟨CALLING, MENU, "back", none⟩,
  ⟨SETTINGS, MENU, "back", none⟩,
  ⟨SETTINGS, IDLE, "home", none⟩,
  ⟨CONNECTING, IDLE, "cancel", none⟩,
  ⟨CONNECTING, MENU, "connected", none⟩,
  ⟨ERROR, IDLE, "reset", none⟩,
  ⟨PLAYING, PLAYING_WITH_VOIP, "voip_ready", none⟩,
  ⟨PLAYLIST_BROWSER, PLAYING_WITH_VOIP, "load_playlist_with_voip", none⟩,
  ⟨MENU, PLAYING_WITH_VOIP, "select_media_with_voip", none⟩,
  ⟨PLAYING_WITH_VOIP, PAUSED, "pause", none⟩,
  ⟨PLAYING_WITH_VOIP, MENU, "back", none⟩,
  ⟨PLAYING_WITH_VOIP, IDLE, "stop", none⟩,
  ⟨PLAYING_WITH_VOIP, PAUSED_BY_CALL, "auto_pause_for_call", none⟩,
  ⟨PLAYING_WITH_VOIP, CALL_INCOMING, "incoming_call", none⟩,
  ⟨PAUSED_BY_CALL, CALL_INCOMING, "incoming_call_ringing", none⟩,
  ⟨PAUSED_BY_CALL, CALL_ACTIVE_MUSIC_PAUSED, "call_answered", none⟩,
  ⟨PAUSED_BY_CALL, PLAYING_WITH_VOIP, "call_rejected_resume", none⟩,
  ⟨PAUSED_BY_CALL, PAUSED, "call_rejected_stay_paused", none⟩,
  ⟨CALL_INCOMING, CALL_ACTIVE_MUSIC_PAUSED, "answer_call_resume_after", none⟩,
  ⟨CALL_INCOMING, PAUSED, "reject_call_stay_paused", none⟩,
  ⟨CALL_INCOMING, PLAYING_WITH_VOIP, "reject_call_resume", none⟩,
  ⟨CALL_ACTIVE_MUSIC_PAUSED, PLAYING_WITH_VOIP, "call_ended_auto_resume", none⟩,
  ⟨CALL_ACTIVE_MUSIC_PAUSED, PAUSED, "call_ended_stay_paused", none⟩,
  ⟨CALL_ACTIVE_MUSIC_PAUSED, MENU, "call_ended_stop_music", none⟩,
  ⟨PLAYING_WITH_VOIP, CALL_OUTGOING, "make_call_pause_music", none⟩,
  ⟨CALL_OUTGOING, CALL_ACTIVE_MUSIC_PAUSED, "call_connected_music_paused", none⟩]

/-- `StateMachine.__init__`: initial state `IDLE`, history `[IDLE]`, empty
callback registries, the fixed transition table. -/
def initSM : SM :=
  { current := IDLE
    previous := none
    history := [IDLE]
    onEnterCbs := fun _ => []
    onExitCbs := fun _ => []
    transitions := defineTransitions }

/-- The match test of the `for` loop in `can_transition`:
`transition.from_state == self.current_state and transition.to_state ==
to_state and transition.trigger == trigger`. -/
def transMatches (cur tgt : AppState) (trig : String) (t : StateTransition) : Bool :=
  t.from_state == cur && t.to_state == tgt && t.trigger == trig

/-- `StateMachine.can_transition`: scan the table for the first matching
entry; if its guard is present and false, refuse; with no matching entry,
a self-transition is always allowed. -/
def canTransition (m : SM) (to_state : AppState) (trigger : String) : Bool :=
  match m.transitions.find? (transMatches m.current to_state trigger) with
  | some t =>
    match t.guard with
    | some g => g
    | none => true
  | none => to_state == m.current

/-- `StateMachine._fire_callbacks`: run every callback in the list, each
wrapped in try/except, so all of them execute in order; the result records
each executed callback's identifier and whether it raised. -/
def fireCallbacks (cbs : List Callback) : List (Nat × Bool) :=
  cbs.map (fun c => (c.ident, c.raises))

/-- `StateMachine.transition_to`: reject when `can_transition` fails;
return `True` without doing anything on a self-transition; otherwise fire
the exit callbacks of the old state, update `previous_state`,
`current_state` and the history (truncated to its last 50 entries when it
exceeds 50), then fire the enter callbacks of the new state.  Returns the
boolean result, the updated machine, and the trace of fired callbacks. -/
def transitionTo (m : SM) (new_state : AppState) (trigger : String) :
    Bool × SM × List (Nat × Bool) :=
  if canTransition m new_state trigger then
    if new_state = m.current then (true, m, [])
    else
      let exitTrace := fireCallbacks (m.onExitCbs m.current)
      let h1 := m.history ++ [new_state]
      let h2 := if h1.length > 50 then h1.drop (h1.length - 50) else h1
      let m' := { m with
        previous := some m.current
        current := new_state
        history := h2 }
      let enterTrace := fireCallbacks (m'.onEnterCbs new_state)
      (true, m', exitTrace ++ enterTrace)
  else (false, m, [])

/-- `StateMachine.on_enter`: append a callback to the registry of a state. -/
def onEnterRegister (m : SM) (s : AppState) (cb : Callback) : SM :=
  { m with onEnterCbs := fun s' =>
      if s' = s then m.onEnterCbs s' ++ [cb] else m.onEnterCbs s' }

/-- `StateMachine.on_exit`: append a callback to the registry of a state. -/
def onExitRegister (m : SM) (s : AppState) (cb : Callback) : SM :=
  { m with onExitCbs := fun s' =>
      if s' = s then m.onExitCbs s' ++ [cb] else m.onExitCbs s' }

/-- `StateMachine.is_in_call`. -/
def is_in_call (m : SM) : Bool :=
  m.current ∈ [CALL_INCOMING, CALL_OUTGOING, CALL_ACTIVE,
    CALL_ACTIVE_MUSIC_PAUSED, CALLING]

/-- `StateMachine.is_music_playing`. -/
def is_music_playing (m : SM) : Bool :=
  m.current ∈ [PLAYING, PLAYING_WITH_VOIP]

/-- `StateMachine.is_playing`. -/
def is_playing (m : SM) : Bool := m.current == PLAYING

/-- `StateMachine.is_idle`. -/
def is_idle (m : SM) : Bool := m.current == IDLE

/-- `StateMachine.is_playing_with_voip`. -/
def is_playing_with_voip (m : SM) : Bool := m.current == PLAYING_WITH_VOIP

/-- `StateMachine.is_music_paused_by_call`. -/
def is_music_paused_by_call (m : SM) : Bool :=
  m.current ∈ [PAUSED_BY_CALL, CALL_ACTIVE_MUSIC_PAUSED]

/-- `StateMachine.has_paused_music_for_call`. -/
def has_paused_music_for_call (m : SM) : Bool :=
  m.current ∈ [PAUSED_BY_CALL, CALL_ACTIVE_MUSIC_PAUSED]

/-- The nine screens `YoyoPodApp._setup_screens` registers with the
`ScreenManager`. -/
inductive Screen where
  | home
  | menu
  | now_playing
  | playlists
  | call
  | contacts
  | incoming_call
  | outgoing_call
  | in_call
  deriving DecidableEq, Repr

/-- The navigation state of `ScreenManager`: the displayed screen and the
back stack (`screen_stack`, most recent at the end, as a Python list). -/
structure ScreenMgr where
  current : Option Screen
  stack : List Screen
  deriving DecidableEq, Repr

/-- `ScreenManager.push_screen` on a registered screen: the displayed
screen (if any) is appended to the stack and the named screen becomes
current.  All nine screens are registered by `_setup_screens`, so the
unknown-name early return never fires. -/
def pushScreen (mgr : ScreenMgr) (s : Screen) : ScreenMgr :=
  match mgr.current with
  | some c => { current := some s, stack := mgr.stack ++ [c] }
  | none => { current := some s, stack := mgr.stack }

/-- `ScreenManager.pop_screen`: with an empty stack return `False` and
change nothing; otherwise the last stack entry becomes current. -/
def popScreen (mgr : ScreenMgr) : Bool × ScreenMgr :=
  match mgr.stack.getLast? with
  | none => (false, mgr)
  | some c => (true, { current := some c, stack := mgr.stack.dropLast })

/-- The `call_screens` list of `YoyoPodApp._pop_call_screens`. -/
def callScreens : List Screen :=
  [Screen.in_call, Screen.incoming_call, Screen.outgoing_call]

/-- The loop condition of `_pop_call_screens`:
`self.screen_manager.current_screen in call_screens` (a `None` current
screen is not in the list). -/
def currentIsCallScreen (mgr : ScreenMgr) : Bool :=
  match mgr.current with
  | some c => callScreens.contains c
  | none => false

lemma popScreen_stack_lt (mgr : ScreenMgr)
    (h : ((popScreen mgr).2).stack ≠ []) :
    ((popScreen mgr).2).stack.length < mgr.stack.length := by
  unfold popScreen at *
  cases hL : mgr.stack.getLast? with
  | none =>
    rw [List.getLast?_eq_none_iff] at hL
    simp [hL] at h
  | some c =>
    have hne : mgr.stack ≠ [] := by
      intro he
      rw [he] at hL
      simp at hL
    simp only [hL, List.length_dropLast]
    have : 0 < mgr.stack.length := List.length_pos.mpr hne
    omega

/-- `YoyoPodApp._pop_call_screens`: keep popping while the current screen
is a call screen, breaking out as soon as the stack is empty.  Each loop
iteration with a non-empty stack removes one entry, which is the
termination measure. -/
def popCallScreens (mgr : ScreenMgr) : ScreenMgr :=
  if currentIsCallScreen mgr then
    let mgr' := (popScreen mgr).2
    if h : mgr'.stack = [] then mgr'
    else popCallScreens mgr'
  else mgr
termination_by mgr.stack.length
decreasing_by
  exact popScreen_stack_lt mgr h

/-- A command the coordinator sends to the music collaborator
(`MopidyClient.pause()` / `MopidyClient.play()`). -/
inductive MusicCmd where
  | pauseCmd
  | playCmd
  deriving DecidableEq, Repr

/-- The coordinator (`YoyoPodApp`) fields the event handlers touch.
`mopidy` is the music collaborator handle: `none` models an absent
`mopidy_client`, `some ps` a client whose `get_playback_state()` currently
reports the string `ps`.  `ringing` models whether `ringing_process` is
set.  `musicCmds` and `pushLog` are traces of the collaborator commands
issued and the screens pushed, recorded so that the handlers' side effects
can be counted. -/
structure App where
  sm : SM
  screens : ScreenMgr
  mopidy : Option String
  music_was_playing_before_call : Bool
  auto_resume_after_call : Bool
  voip_registered : Bool
  handling_incoming_call : Bool
  ringing : Bool
  musicCmds : List MusicCmd
  pushLog : List Screen

/-- A transition request as issued by the handlers, which ignore the
boolean result and the callback trace of `transition_to`. -/
def appTransition (app : App) (tgt : AppState) (trig : String) : App :=
  { app with sm := (transitionTo app.sm tgt trig).2.1 }

/-- Screen push as issued by the handlers, recorded in the push trace. -/
def appPushScreen (app : App) (s : Screen) : App :=
  { app with
    screens := pushScreen app.screens s
    pushLog := app.pushLog ++ [s] }

/-- `YoyoPodApp._stop_ringing`: terminate the ring-tone process if one is
set. -/
def stopRinging (app : App) : App :=
  if app.ringing then { app with ringing := false } else app

/-- `YoyoPodApp._start_ringing`: stop any existing ringing first, then
spawn the ring-tone process. -/
def startRinging (app : App) : App :=
  let a := stopRinging app
  { a with ringing := true }

/-- `YoyoPodApp._handle_incoming_call`.  The caller address and name are
only copied onto the incoming-call screen for display, which is outside
the model. -/
def handleIncomingCall (app : App) : App :=
  if app.handling_incoming_call then app
  else
    let a1 := { app with handling_incoming_call := true }
    let ps := match a1.mopidy with
      | some st => st
      | none => "stopped"
    let a2 :=
      if ps = "playing" then
        let b1 := { a1 with music_was_playing_before_call := true }
        let b2 := match b1.mopidy with
          | some _ => { b1 with musicCmds := b1.musicCmds ++ [MusicCmd.pauseCmd] }
          | none => b1
        if is_music_playing b2.sm then
          appTransition b2 PAUSED_BY_CALL "auto_pause_for_call"
        else b2
      else a1
    let a3 := appTransition a2 CALL_INCOMING "incoming_call"
    let a4 :=
      if a3.screens.current ≠ some Screen.incoming_call then
        appPushScreen a3 Screen.incoming_call
      else a3
    startRinging a4

/-- `YoyoPodApp._handle_call_ended`.  The now-playing screen refresh at
the end of the auto-resume branch is display-only and outside the model. -/
def handleCallEnded (app : App) : App :=
  let a1 := stopRinging app
  let a2 := { a1 with handling_incoming_call := false }
  let a3 := { a2 with screens := popCallScreens a2.screens }
  let a4 :=
    if a3.music_was_playing_before_call && a3.auto_resume_after_call then
      let b1 := match a3.mopidy with
        | some _ => { a3 with musicCmds := a3.musicCmds ++ [MusicCmd.playCmd] }
        | none => a3
      appTransition b1 PLAYING_WITH_VOIP "call_ended_auto_resume"
    else if a3.music_was_playing_before_call then
      appTransition a3 PAUSED "call_ended_stay_paused"
    else
      if a3.sm.current = CALL_ACTIVE then
        appTransition a3 CALL_IDLE "call_ended"
      else a3
  { a4 with music_was_playing_before_call := false }

/-- Python attribute lookup for the boolean helper methods of
`StateMachine`: the class body of `state_machine.py` defines exactly
`is_playing`, `is_idle`, `is_playing_with_voip`, `is_music_paused_by_call`,
`is_in_call`, `is_music_playing` and `has_paused_music_for_call` as its
boolean state-query methods; any other name fails to resolve. -/
def smBoolMethod (name : String) : Option (SM → Bool) :=
  if name = "is_playing" then some is_playing
  else if name = "is_idle" then some is_idle
  else if name = "is_playing_with_voip" then some is_playing_with_voip
  else if name = "is_music_paused_by_call" then some is_music_paused_by_call
  else if name = "is_in_call" then some is_in_call
  else if name = "is_music_playing" then some is_music_playing
  else if name = "has_paused_music_for_call" then some has_paused_music_for_call
  else none

/-- `YoyoPodApp._handle_playback_state_change`.  Its first statement after
logging evaluates `self.state_machine.is_call_active()`; the attribute
lookup is embedded through `smBoolMethod`, and a failed lookup raises
`AttributeError`, modelled as `Except.error`.  The trailing now-playing
screen refresh is display-only and outside the model. -/
def handlePlaybackStateChange (app : App) (playback_state : String) :
    Except String App :=
  match smBoolMethod "is_call_active" with
  | none =>
    Except.error "AttributeError: StateMachine object has no attribute is_call_active"
  | some f =>
    if f app.sm then Except.ok app
    else
      let cur := app.sm.current
      if playback_state = "playing" then
        if app.voip_registered && !(cur == PLAYING_WITH_VOIP) then
          Except.ok (appTransition app PLAYING_WITH_VOIP "music_started")
        else if !app.voip_registered && !(cur == PLAYING) then
          Except.ok (appTransition app PLAYING "music_started")
        else Except.ok app
      else if playback_state = "paused" || playback_state = "stopped" then
        if is_music_playing app.sm && !(cur == PAUSED) then
          Except.ok (appTransition app PAUSED "music_paused")
        else Except.ok app
      else Except.ok app

/-- `RegistrationState` from `voip_manager.py`. -/
inductive RegistrationState where
  | NONE
  | PROGRESS
  | OK
  | CLEARED
  | FAILED
  deriving DecidableEq, Repr

/-- `CallState` from `voip_manager.py`. -/
inductive CallState where
  | IDLE
  | INCOMING
  | OUTGOING
  | OUTGOING_PROGRESS
  | OUTGOING_RINGING
  | OUTGOING_EARLY_MEDIA
  | CONNECTED
  | STREAMS_RUNNING
  | PAUSED
  | PAUSED_BY_REMOTE
  | UPDATED_BY_REMOTE
  | RELEASED
  | ERROR
  | END
  deriving DecidableEq, Repr

/-- The `VoIPManager` state the two producer-side update methods touch:
the stored registration and call states, the `registered` mirror flag, and
the sequences of states delivered to the registration and call-state
subscriber callbacks (every registered callback receives the same
sequence; exceptions a subscriber raises are caught per callback and do
not stop delivery). -/
structure VoipMgr where
  registration_state : RegistrationState
  registered : Bool
  call_state : CallState
  regNotifs : List RegistrationState
  callNotifs : List CallState
  deriving DecidableEq, Repr

/-- `VoIPManager.__init__`: `registered = False`,
`registration_state = NONE`, `call_state = IDLE`, no notifications yet. -/
def initVoip : VoipMgr :=
  { registration_state := RegistrationState.NONE
    registered := false
    call_state := CallState.IDLE
    regNotifs := []
    callNotifs := [] }

/-- `VoIPManager._update_registration_state`: only when the parsed state
differs from the stored one, store it, refresh `registered`, and notify
every subscriber. -/
def updateRegistrationState (v : VoipMgr) (s : RegistrationState) : VoipMgr :=
  if s ≠ v.registration_state then
    { v with
      registration_state := s
      registered := s == RegistrationState.OK
      regNotifs := v.regNotifs ++ [s] }
  else v

/-- `VoIPManager._update_call_state`: only when the parsed state differs
from the stored one, store it and notify every subscriber. -/
def updateCallState (v : VoipMgr) (s : CallState) : VoipMgr :=
  if s ≠ v.call_state then
    { v with
      call_state := s
      callNotifs := v.callNotifs ++ [s] }
  else v

/-- The monitor thread parses lines one at a time and feeds each parsed
call state to `_update_call_state` in order. -/
def processCallUpdates (v : VoipMgr) (l : List CallState) : VoipMgr :=
  l.foldl updateCallState v

/-- The monitor thread parses lines one at a time and feeds each parsed
registration state to `_update_registration_state` in order. -/
def processRegUpdates (v : VoipMgr) (l : List RegistrationState) : VoipMgr :=
  l.foldl updateRegistrationState v

/-! ## Theorems -/

lemma transitionTo_fail (m : SM) (tgt : AppState) (trig : String)
    (h : canTransition m tgt trig = false) :
    transitionTo m tgt trig = (false, m, []) := by
  unfold transitionTo
  simp [h]

lemma transitionTo_self (m : SM) (tgt : AppState) (trig : String)
    (h : canTransition m tgt trig = true) (hs : tgt = m.current) :
    transitionTo m tgt trig = (true, m, []) := by
  unfold transitionTo
  rw [h]
  simp [hs]

lemma transitionTo_go (m : SM) (tgt : AppState) (trig : String)
    (h : canTransition m tgt trig = true) (hs : ¬ tgt = m.current) :
    transitionTo m tgt trig =
      (true,
       { m with
         previous := some m.current
         current := tgt
         history :=
           if (m.history ++ [tgt]).length > 50 then
             (m.history ++ [tgt]).drop ((m.history ++ [tgt]).length - 50)
           else m.history ++ [tgt] },
       fireCallbacks (m.onExitCbs m.current) ++ fireCallbacks (m.onEnterCbs tgt)) := by
  unfold transitionTo
  simp [h, hs]

lemma find?_none_of_no_match (m : SM) (tgt : AppState) (trig : String)
    (hno : ∀ t ∈ m.transitions,
      ¬(t.from_state = m.current ∧ t.to_state = tgt ∧ t.trigger = trig)) :
    m.transitions.find? (transMatches m.current tgt trig) = none := by
  rw [List.find?_eq_none]
  intro t ht hp
  simp only [transMatches, Bool.and_eq_true, beq_iff_eq] at hp
  exact hno t ht ⟨hp.1.1, hp.1.2, hp.2⟩

/-- C4: when no entry of the transition table matches the current state,
the trigger and the requested target, and the target differs from the
current state, `transition_to` returns false, the machine is unchanged and
no enter or exit callback fires. -/
theorem c4_no_matching_rule_transition_rejected (m : SM) (tgt : AppState)
    (trig : String)
    (hno : ∀ t ∈ m.transitions,
      ¬(t.from_state = m.current ∧ t.to_state = tgt ∧ t.trigger = trig))
    (hne : tgt ≠ m.current) :
    transitionTo m tgt trig = (false, m, []) := by
  have hcan : canTransition m tgt trig = false := by
    unfold canTransition
    rw [find?_none_of_no_match m tgt trig hno]
    simp [beq_iff_eq, hne]
  unfold transitionTo
  rw [hcan]
  simp

/-- C4 witness: from `IDLE`, no table entry sends trigger `open_menu` to
`PLAYING`, so the request is rejected and nothing changes. -/
theorem c4_witness : transitionTo initSM PLAYING "open_menu" = (false, initSM, []) :=
  c4_no_matching_rule_transition_rejected initSM PLAYING "open_menu"
    (by decide) (by decide)

/-- C5: on the transition table fixed at construction, requesting the
current state again succeeds for every trigger, fires no callbacks, and
leaves the machine — current state and history included — unchanged. -/
theorem c5_self_transition_noop (m : SM) (trig : String)
    (htab : m.transitions = defineTransitions) :
    transitionTo m m.current trig = (true, m, []) := by
  have hfrom : ∀ t ∈ m.transitions, t.from_state ≠ t.to_state := by
    rw [htab]; decide
  have hfind : m.transitions.find? (transMatches m.current m.current trig) = none := by
    rw [List.find?_eq_none]
    intro t ht hp
    simp only [transMatches, Bool.and_eq_true, beq_iff_eq] at hp
    exact hfrom t ht (hp.1.1.trans hp.1.2.symm)
  have hcan : canTransition m m.current trig = true := by
    unfold canTransition
    rw [hfind]
    simp
  unfold transitionTo
  rw [hcan]
  simp

/-- C5 witness: a self-transition request on the freshly constructed
machine (current state `IDLE`) succeeds and changes nothing. -/
theorem c5_witness : transitionTo initSM initSM.current "manual" = (true, initSM, []) :=
  c5_self_transition_noop initSM "manual" rfl

/-- C6: on a successful non-self transition, a raising callback is caught
at the firing site: the full exit list of the old state and the full enter
list of the new state are executed in registration order, `transition_to`
still returns true, and the new current state and appended history entry
stand. -/
theorem c6_callback_exception_swallowed (m : SM) (tgt : AppState) (trig : String)
    (hcan : canTransition m tgt trig = true) (hne : tgt ≠ m.current)
    (hraise : ∃ cb ∈ m.onExitCbs m.current ++ m.onEnterCbs tgt, cb.raises = true) :
    (transitionTo m tgt trig).1 = true ∧
    (transitionTo m tgt trig).2.2 =
      fireCallbacks (m.onExitCbs m.current) ++ fireCallbacks (m.onEnterCbs tgt) ∧
    (transitionTo m tgt trig).2.1.current = tgt ∧
    (transitionTo m tgt trig).2.1.history =
      (if (m.history ++ [tgt]).length > 50 then
        (m.history ++ [tgt]).drop ((m.history ++ [tgt]).length - 50)
      else m.history ++ [tgt]) := by
  unfold transitionTo
  rw [hcan]
  simp [hne]

/-- C6 witness: with a raising exit callback registered on `IDLE`, the
legal transition `IDLE → MENU` by `open_menu` still succeeds, runs the
callback, and commits the state change. -/
theorem c6_witness :
    (transitionTo (onExitRegister initSM IDLE ⟨0, true⟩) MENU "open_menu").1 = true ∧
    (transitionTo (onExitRegister initSM IDLE ⟨0, true⟩) MENU "open_menu").2.2 =
      fireCallbacks ((onExitRegister initSM IDLE ⟨0, true⟩).onExitCbs
        (onExitRegister initSM IDLE ⟨0, true⟩).current) ++
      fireCallbacks ((onExitRegister initSM IDLE ⟨0, true⟩).onEnterCbs MENU) ∧
    (transitionTo (onExitRegister initSM IDLE ⟨0, true⟩) MENU "open_menu").2.1.current = MENU ∧
    (transitionTo (onExitRegister initSM IDLE ⟨0, true⟩) MENU "open_menu").2.1.history =
      (if (((onExitRegister initSM IDLE ⟨0, true⟩).history ++ [MENU]).length > 50) then
        (((onExitRegister initSM IDLE ⟨0, true⟩).history ++ [MENU])).drop
          ((((onExitRegister initSM IDLE ⟨0, true⟩).history ++ [MENU])).length - 50)
      else (onExitRegister initSM IDLE ⟨0, true⟩).history ++ [MENU]) :=
  c6_callback_exception_swallowed (onExitRegister initSM IDLE ⟨0, true⟩) MENU
    "open_menu" (by decide) (by decide) ⟨⟨0, true⟩, by decide, rfl⟩

/-- The number of transition-table entries matching a given
(from-state, trigger) pair. -/
def countPair (s : AppState) (trig : String) : Nat :=
  (defineTransitions.filter (fun t => t.from_state == s && t.trigger == trig)).length

/-- C7 counterexample: the pair `(PAUSED, "resume")` matches two distinct
entries of the table (`PAUSED → PLAYING` and `PAUSED → PLAYING_WITH_VOIP`),
so the table does not have at most one entry per (from-state, trigger)
pair. -/
theorem c7_counterexample_paused_resume : countPair PAUSED "resume" = 2 := by
  decide

/-- C7 amended: every (from-state, trigger) pair matches at most two
entries of the table, and exactly the three pairs `(PAUSED, "resume")`,
`(CALL_IDLE, "make_call")` and `(CALL_IDLE, "incoming_call")` match two;
every other pair matches at most one.  Both directions are stated: any
pair matching at least two entries matches exactly two and is one of the
three, and each of the three pairs does match two entries. -/
theorem c7_at_most_two_rules_per_pair (s : AppState) (trig : String)
    (h : 2 ≤ countPair s trig) :
    (countPair s trig = 2 ∧
      (s, trig) ∈ [(PAUSED, "resume"), (CALL_IDLE, "make_call"),
        (CALL_IDLE, "incoming_call")]) ∧
    countPair PAUSED "resume" = 2 ∧
    countPair CALL_IDLE "make_call" = 2 ∧
    countPair CALL_IDLE "incoming_call" = 2 := by
  refine ⟨?_, by decide, by decide, by decide⟩
  have hx : ∃ t ∈ defineTransitions, t.from_state = s ∧ t.trigger = trig := by
    by_contra hc
    push_neg at hc
    have hnil : defineTransitions.filter
        (fun t => t.from_state == s && t.trigger == trig) = [] := by
      rw [List.filter_eq_nil_iff]
      intro t ht hp
      simp only [Bool.and_eq_true, beq_iff_eq] at hp
      exact hc t ht hp.1 hp.2
    unfold countPair at h
    rw [hnil] at h
    simp at h
  obtain ⟨t, ht, h1, h2⟩ := hx
  subst h1
  subst h2
  have key : ∀ u ∈ defineTransitions,
      2 ≤ countPair u.from_state u.trigger →
      countPair u.from_state u.trigger = 2 ∧
      (u.from_state, u.trigger) ∈ [(PAUSED, "resume"), (CALL_IDLE, "make_call"),
        (CALL_IDLE, "incoming_call")] := by decide
  exact key t ht h

/-- C7 witness: the duplicated pair `(PAUSED, "resume")` satisfies the
amended bound, and all three listed pairs match two entries. -/
theorem c7_witness :
    (countPair PAUSED "resume" = 2 ∧
      (PAUSED, "resume") ∈ [(PAUSED, "resume"), (CALL_IDLE, "make_call"),
        (CALL_IDLE, "incoming_call")]) ∧
    countPair PAUSED "resume" = 2 ∧
    countPair CALL_IDLE "make_call" = 2 ∧
    countPair CALL_IDLE "incoming_call" = 2 :=
  c7_at_most_two_rules_per_pair PAUSED "resume" (by decide)

/-- C8: the history holds at most 50 entries after construction and after
any `transition_to` starting from a machine within the bound; a successful
non-self transition appends exactly the new state, dropping the single
oldest entry exactly when the history was full. -/
theorem c8_history_bounded (m : SM) (tgt : AppState) (trig : String)
    (hlen : m.history.length ≤ 50) :
    initSM.history.length ≤ 50 ∧
    (transitionTo m tgt trig).2.1.history.length ≤ 50 ∧
    ((transitionTo m tgt trig).1 = true → tgt ≠ m.current →
      (transitionTo m tgt trig).2.1.history =
        m.history.drop (if m.history.length = 50 then 1 else 0) ++ [tgt]) := by
  by_cases hcan : canTransition m tgt trig
  · by_cases hself : tgt = m.current
    · rw [transitionTo_self m tgt trig hcan hself]
      exact ⟨by decide, hlen, fun _ hne => absurd hself hne⟩
    · rw [transitionTo_go m tgt trig hcan hself]
      have hgoal : (if (m.history ++ [tgt]).length > 50 then
          (m.history ++ [tgt]).drop ((m.history ++ [tgt]).length - 50)
        else m.history ++ [tgt]) =
          m.history.drop (if m.history.length = 50 then 1 else 0) ++ [tgt] := by
        by_cases hfull : (m.history ++ [tgt]).length > 50
        · have h50 : m.history.length = 50 := by
            simp only [List.length_append, List.length_singleton] at hfull
            omega
          rw [if_pos hfull, if_pos h50]
          have hdrop1 : (m.history ++ [tgt]).length - 50 = 1 := by
            simp only [List.length_append, List.length_singleton, h50]
          rw [hdrop1, List.drop_append_of_le_length (by omega)]
        · have h50 : ¬ m.history.length = 50 := by
            simp only [List.length_append, List.length_singleton] at hfull
            omega
          rw [if_neg hfull, if_neg h50]
          simp
      refine ⟨by decide, ?_, fun _ _ => hgoal⟩
      rw [hgoal]
      simp only [List.length_append, List.length_singleton, List.length_drop]
      by_cases h50 : m.history.length = 50
      · rw [if_pos h50]; omega
      · rw [if_neg h50]; omega
  · rw [transitionTo_fail m tgt trig (by simpa using hcan)]
    exact ⟨by decide, hlen, fun hres _ => by simp at hres⟩

/-- C8 witness: a fresh machine taking `IDLE → MENU` by `open_menu`
appends `MENU` without truncation and stays within the bound. -/
theorem c8_witness :
    initSM.history.length ≤ 50 ∧
    (transitionTo initSM MENU "open_menu").2.1.history.length ≤ 50 ∧
    ((transitionTo initSM MENU "open_menu").1 = true → MENU ≠ initSM.current →
      (transitionTo initSM MENU "open_menu").2.1.history =
        initSM.history.drop (if initSM.history.length = 50 then 1 else 0) ++ [MENU]) :=
  c8_history_bounded initSM MENU "open_menu" (by decide)

lemma popScreen_lt_of_ne (mgr : ScreenMgr) (h : mgr.stack ≠ []) :
    ((popScreen mgr).2).stack.length < mgr.stack.length := by
  unfold popScreen
  cases hL : mgr.stack.getLast? with
  | none =>
    rw [List.getLast?_eq_none_iff] at hL
    exact absurd hL h
  | some c =>
    simp only [List.length_dropLast]
    have hpos : 0 < mgr.stack.length := List.length_pos.mpr h
    omega

lemma popScreen_empty (mgr : ScreenMgr) (h : mgr.stack = []) :
    popScreen mgr = (false, mgr) := by
  unfold popScreen
  rw [List.getLast?_eq_none_iff.mpr h]

/-- C9: `_pop_call_screens` (a total function here, which is the
termination claim) leaves the manager untouched when the stack is empty
or the displayed screen is not a call screen, and every loop iteration
taken with a non-empty stack removes exactly one entry, strictly
decreasing the stack. -/
theorem c9_pop_call_screens (mgr mgr2 : ScreenMgr)
    (h1 : mgr.stack = [] ∨ currentIsCallScreen mgr = false)
    (h2 : currentIsCallScreen mgr2 = true) (h3 : mgr2.stack ≠ []) :
    popCallScreens mgr = mgr ∧
    ((popScreen mgr2).2).stack.length < mgr2.stack.length := by
  refine ⟨?_, popScreen_lt_of_ne mgr2 h3⟩
  rcases h1 with he | hf
  · rw [popCallScreens]
    by_cases hc : currentIsCallScreen mgr
    · rw [if_pos hc]
      simp only [popScreen_empty mgr he]
      simp [he]
    · rw [if_neg hc]
  · rw [popCallScreens]
    rw [if_neg (by simp [hf])]

/-- C9 witness: an empty-stack manager showing the menu is untouched, and
one pop from an incoming-call screen with one stacked screen shrinks the
stack. -/
theorem c9_witness :
    popCallScreens ⟨some Screen.menu, []⟩ = ⟨some Screen.menu, []⟩ ∧
    ((popScreen ⟨some Screen.incoming_call, [Screen.menu]⟩).2).stack.length <
      (⟨some Screen.incoming_call, [Screen.menu]⟩ : ScreenMgr).stack.length :=
  c9_pop_call_screens ⟨some Screen.menu, []⟩ ⟨some Screen.incoming_call, [Screen.menu]⟩
    (Or.inl rfl) (by decide) (by decide)

lemma updateCallState_chain (v : VoipMgr) (s : CallState)
    (h1 : List.Chain' (· ≠ ·) v.callNotifs)
    (h2 : v.callNotifs = [] ∨ v.callNotifs.getLast? = some v.call_state) :
    List.Chain' (· ≠ ·) (updateCallState v s).callNotifs ∧
    ((updateCallState v s).callNotifs = [] ∨
      (updateCallState v s).callNotifs.getLast? = some (updateCallState v s).call_state) := by
  unfold updateCallState
  by_cases hs : s ≠ v.call_state
  · rw [if_pos hs]
    refine ⟨?_, Or.inr ?_⟩
    · apply List.Chain'.append h1 (List.chain'_singleton s)
      intro x hx y hy
      rcases h2 with he | hl
      · rw [he] at hx
        simp at hx
      · rw [hl] at hx
        simp only [Option.mem_def, Option.some_inj] at hx
        simp only [List.head?_cons, Option.mem_def, Option.some_inj] at hy
        subst hx
        subst hy
        exact fun hxy => hs hxy.symm
    · simp [List.getLast?_concat]
  · rw [if_neg hs]
    exact ⟨h1, h2⟩

lemma updateRegistrationState_chain (v : VoipMgr) (s : RegistrationState)
    (h1 : List.Chain' (· ≠ ·) v.regNotifs)
    (h2 : v.regNotifs = [] ∨ v.regNotifs.getLast? = some v.registration_state) :
    List.Chain' (· ≠ ·) (updateRegistrationState v s).regNotifs ∧
    ((updateRegistrationState v s).regNotifs = [] ∨
      (updateRegistrationState v s).regNotifs.getLast? =
        some (updateRegistrationState v s).registration_state) := by
  unfold updateRegistrationState
  by_cases hs : s ≠ v.registration_state
  · rw [if_pos hs]
    refine ⟨?_, Or.inr ?_⟩
    · apply List.Chain'.append h1 (List.chain'_singleton s)
      intro x hx y hy
      rcases h2 with he | hl
      · rw [he] at hx
        simp at hx
      · rw [hl] at hx
        simp only [Option.mem_def, Option.some_inj] at hx
        simp only [List.head?_cons, Option.mem_def, Option.some_inj] at hy
        subst hx
        subst hy
        exact fun hxy => hs hxy.symm
    · simp [List.getLast?_concat]
  · rw [if_neg hs]
    exact ⟨h1, h2⟩

lemma processCallUpdates_chain (l : List CallState) (v : VoipMgr)
    (h1 : List.Chain' (· ≠ ·) v.callNotifs)
    (h2 : v.callNotifs = [] ∨ v.callNotifs.getLast? = some v.call_state) :
    List.Chain' (· ≠ ·) (processCallUpdates v l).callNotifs := by
  induction l generalizing v with
  | nil => exact h1
  | cons a l ih =>
    have := updateCallState_chain v a h1 h2
    exact ih (updateCallState v a) this.1 this.2

lemma processRegUpdates_chain (l : List RegistrationState) (v : VoipMgr)
    (h1 : List.Chain' (· ≠ ·) v.regNotifs)
    (h2 : v.regNotifs = [] ∨ v.regNotifs.getLast? = some v.registration_state) :
    List.Chain' (· ≠ ·) (processRegUpdates v l).regNotifs := by
  induction l generalizing v with
  | nil => exact h1
  | cons a l ih =>
    have := updateRegistrationState_chain v a h1 h2
    exact ih (updateRegistrationState v a) this.1 this.2

/-- C10: an update equal to the stored state notifies nobody, and over any
sequence of parsed updates the sequence of call-state (respectively
registration-state) notifications delivered to the subscribers never
repeats a value in two consecutive positions. -/
theorem c10_producer_dedup (lc : List CallState) (lr : List RegistrationState) :
    (∀ v : VoipMgr, updateCallState v v.call_state = v) ∧
    (∀ v : VoipMgr, updateRegistrationState v v.registration_state = v) ∧
    List.Chain' (· ≠ ·) (processCallUpdates initVoip lc).callNotifs ∧
    List.Chain' (· ≠ ·) (processRegUpdates initVoip lr).regNotifs := by
  refine ⟨?_, ?_, ?_, ?_⟩
  · intro v
    unfold updateCallState
    simp
  · intro v
    unfold updateRegistrationState
    simp
  · exact processCallUpdates_chain lc initVoip List.chain'_nil (Or.inl rfl)
  · exact processRegUpdates_chain lr initVoip List.chain'_nil (Or.inl rfl)

/-- The coordinator state of the C1 scenario: the state machine is in
`PLAYING_WITH_VOIP`, the music collaborator reports `"playing"`, the
now-playing screen is displayed over the menu, no call is being handled. -/
def appRingScenario : App :=
  { sm := { initSM with
            current := PLAYING_WITH_VOIP
            history := [IDLE, MENU, PLAYING_WITH_VOIP] }
    screens := { current := some Screen.now_playing, stack := [Screen.menu] }
    mopidy := some "playing"
    music_was_playing_before_call := false
    auto_resume_after_call := true
    voip_registered := true
    handling_incoming_call := false
    ringing := false
    musicCmds := []
    pushLog := [] }

/-- C1, evaluated at the failing input: two back-to-back incoming-call
events in `PLAYING_WITH_VOIP` with music playing.  `pause()` is called
exactly once and the incoming-call screen pushed exactly once (the
re-entrancy guard discards the duplicate event), but the state machine
ends in `PAUSED_BY_CALL`, not `CALL_INCOMING`: the handler requests
`CALL_INCOMING` with trigger `"incoming_call"`, and from `PAUSED_BY_CALL`
the table only admits trigger `"incoming_call_ringing"`, so the second
hop is rejected. -/
theorem c1_incoming_call_twice_stuck_in_paused_by_call :
    (handleIncomingCall (handleIncomingCall appRingScenario)).sm.current =
      PAUSED_BY_CALL ∧
    (handleIncomingCall (handleIncomingCall appRingScenario)).sm.current ≠
      CALL_INCOMING ∧
    (handleIncomingCall (handleIncomingCall appRingScenario)).musicCmds =
      [MusicCmd.pauseCmd] ∧
    (handleIncomingCall (handleIncomingCall appRingScenario)).pushLog =
      [Screen.incoming_call] ∧
    (transitionTo (handleIncomingCall appRingScenario).sm CALL_INCOMING
      "incoming_call").1 = false := by
  refine ⟨by decide, by decide, by decide, by decide, by decide⟩

/-- C2: the playback-state-change handler begins by evaluating
`self.state_machine.is_call_active()`; `StateMachine` defines `is_in_call`
but no `is_call_active`, so the attribute lookup fails and every
playback-state-change event raises `AttributeError` before the state
machine is consulted or synchronized. -/
theorem c2_playback_state_change_raises_attribute_error (app : App)
    (playback_state : String) :
    handlePlaybackStateChange app playback_state =
      Except.error "AttributeError: StateMachine object has no attribute is_call_active" :=
  rfl

/-- The coordinator state of the C3 failing input: the state the code
actually reaches when an incoming call paused the music and the caller
hangs up before the call is answered — state machine in `PAUSED_BY_CALL`,
"music was playing" flag set, auto-resume enabled, incoming-call screen
displayed, ring tone sounding. -/
def appReleasedWhileRinging : App :=
  { sm := { initSM with
            current := PAUSED_BY_CALL
            history := [IDLE, MENU, PLAYING_WITH_VOIP, PAUSED_BY_CALL] }
    screens := { current := some Screen.incoming_call
                 stack := [Screen.menu, Screen.now_playing] }
    mopidy := some "paused"
    music_was_playing_before_call := true
    auto_resume_after_call := true
    voip_registered := true
    handling_incoming_call := true
    ringing := true
    musicCmds := []
    pushLog := [] }

/-- C3, evaluated at the failing input: on the released event with music
playing before the call and auto-resume enabled, `play()` is called
exactly once and both guard flags are false on return — but the
transition request uses trigger `"call_ended_auto_resume"`, which the
table only admits from `CALL_ACTIVE_MUSIC_PAUSED`, so from
`PAUSED_BY_CALL` the machine stays in `PAUSED_BY_CALL` instead of
reaching `PLAYING_WITH_VOIP`. -/
theorem c3_call_released_while_ringing_music_not_resumed :
    (handleCallEnded appReleasedWhileRinging).sm.current = PAUSED_BY_CALL ∧
    (handleCallEnded appReleasedWhileRinging).sm.current ≠ PLAYING_WITH_VOIP ∧
    (handleCallEnded appReleasedWhileRinging).musicCmds = [MusicCmd.playCmd] ∧
    (handleCallEnded appReleasedWhileRinging).music_was_playing_before_call = false ∧
    (handleCallEnded appReleasedWhileRinging).handling_incoming_call = false := by
  refine ⟨by decide, by decide, by decide, by decide, by decide⟩

end YoyoPy
